import Mathlib

/-!
Shallow embedding of the wallet-exporter repository (Go) for specification
verification.

Sources embedded:
- `internal/config/config.go` (environment parsing, `Validate`, `Load`)
- `internal/exporter/exporter.go` (`fetchPaymentsInfo`, `fetchProviderWallet`,
  `fetchProviderWallets`, `fetchCustomWallet`, `fetchCustomWallets`,
  `pingProvider`, `pingProviders`, `updateMetrics`, `scrape`, and the
  semaphore-bounded worker pools).

Modelling conventions:
- `*big.Int` values become `Int` (both are arbitrary precision).
- Remote calls (registry contract reads, chain balance reads, the Payments
  contract read, HTTP probes) are represented by oracle records whose fields
  return `Option`-valued answers: `none` embeds the Go call returning a
  non-nil error, `some x` a successful result `x`.
- Chain addresses are carried as the strings they are rendered to by
  `common.Address.Hex()`; hex parsing/checksum re-rendering
  (`common.HexToAddress` / `.Hex()`) is a bijective renaming not modelled.
- Prometheus `GaugeVec`s are label-keyed partial maps. Gauge values are kept
  in on-chain base units (`Int`): the Go code divides by `1e18` into a
  `float64` before `Set`; no claim depends on the displayed numeric value, so
  the float conversion is not modelled.
- Goroutine fan-out/fan-in over channels is sequentialised in provider-ID /
  input order; all claims about the fetch results are order-insensitive
  (membership, counts). The in-flight bound of the shared semaphore pattern
  is modelled separately as a small-step transition system.
- `time.ParseDuration` (`SCRAPE_INTERVAL`) and the `MetricsPrefix` string
  passthrough are not modelled: no claim concerns them. `godotenv.Load` (a
  best-effort file read) is likewise outside the model; the environment is
  the `Env` map below.
-/

namespace WalletExporter

/-- Chain address, carried as its rendered hex string. -/
abbrev Address := String

/-- config.CustomWallet. -/
structure CustomWallet where
  address : String
  name : String
  type : String
deriving DecidableEq

/-- The process environment as seen through `os.Getenv`: unset variables
read as the empty string, exactly as in Go. -/
abbrev Env := String → String

/-- config.getEnv. -/
def getEnv (env : Env) (key defaultValue : String) : String :=
  if env key ≠ "" then env key else defaultValue

/-- Accumulate a decimal digit list into a `Nat` (helper for `atoi`). -/
def digitsToNat (ds : List Char) : Nat :=
  ds.foldl (fun acc c => acc * 10 + (c.toNat - 48)) 0

/-- strconv.Atoi: optional sign, then a non-empty run of ASCII digits, the
value required to fit a 64-bit signed integer; `none` embeds a non-nil
error. -/
def atoi (s : String) : Option Int :=
  let signDigits : Int × List Char :=
    match s.data with
    | '-' :: rest => (-1, rest)
    | '+' :: rest => (1, rest)
    | rest => (1, rest)
  let sign := signDigits.1
  let digits := signDigits.2
  if digits.isEmpty then none
  else if digits.all Char.isDigit then
    let v : Int := sign * (digitsToNat digits : Nat)
    if -(2 ^ 63) ≤ v ∧ v < 2 ^ 63 then some v else none
  else none

/-- config.getEnvInt: a set but unparseable value silently falls back to the
default. -/
def getEnvInt (env : Env) (key : String) (defaultValue : Int) : Int :=
  if env key ≠ "" then
    match atoi (env key) with
    | some intValue => intValue
    | none => defaultValue
  else defaultValue

/-- config.Config (the fields the claims touch; `ScrapeInterval` and
`MetricsPrefix` omitted, see the file header). -/
structure Config where
  network : String
  rpcURL : String
  warmStorageAddress : String
  usdfcTokenAddress : String
  paymentsAddress : String
  customWallets : List CustomWallet
  exporterPort : Int
  logLevel : String
  maxConcurrentRequests : Int

/-- Default WarmStorage address per network (Go map lookup; missing key
yields the empty string). -/
def defaultWarmStorage (network : String) : String :=
  if network = "calibration" then "0x02925630df557F957f70E112bA06e50965417CA0"
  else if network = "mainnet" then "0x8408502033C418E1bbC97cE9ac48E5528F371A9f"
  else ""

/-- Default USDFC token address per network. -/
def defaultUSDFC (network : String) : String :=
  if network = "calibration" then "0xb3042734b608a1B16e9e86B374A3f3e389B4cDf0"
  else if network = "mainnet" then "0x80B98d3aa09ffff255c3ba4A241111Ff1262F045"
  else ""

/-- Default Payments contract address per network. -/
def defaultPayments (network : String) : String :=
  if network = "calibration" then "0x09a0fDc2723fAd1A7b8e3e00eE5DF73841df55a0"
  else if network = "mainnet" then "0x23b1e018F08BB982348b15a86ee926eEBf7F4DAa"
  else ""

/-- config.parseWalletEntry: "address:name:type" or "address:name". -/
def parseWalletEntry (entry : String) : Option CustomWallet :=
  let parts := entry.trim.splitOn ":"
  if parts.length < 2 then none
  else
    let wallet : CustomWallet :=
      { address := (parts.getD 0 "").trim
        name := (parts.getD 1 "").trim
        type := "other" }
    if parts.length ≥ 3 ∧ (parts.getD 2 "").trim ≠ "" then
      some { wallet with type := (parts.getD 2 "").trim }
    else some wallet

/-- config.parseLegacyFormat: comma-separated wallet entries. -/
def parseLegacyFormat (walletsStr : String) : List CustomWallet :=
  (walletsStr.splitOn ",").filterMap parseWalletEntry

/-- config.parseCustomWallets: the legacy CUSTOM_WALLETS variable followed by
CUSTOM_WALLET_1 .. CUSTOM_WALLET_1000. -/
def parseCustomWallets (env : Env) : List CustomWallet :=
  let legacyWallets := getEnv env "CUSTOM_WALLETS" ""
  let wallets := if legacyWallets ≠ "" then parseLegacyFormat legacyWallets else []
  wallets ++ (List.range 1000).filterMap (fun i =>
    let walletStr := env ("CUSTOM_WALLET_" ++ toString (i + 1))
    if walletStr ≠ "" then parseWalletEntry walletStr else none)

/-- The pure construction part of config.Load (everything before the
`Validate` call). -/
def loadConfig (env : Env) : Config :=
  let network := getEnv env "NETWORK" "calibration"
  { network := network
    rpcURL := getEnv env "RPC_URL" "https://api.calibration.node.glif.io/rpc/v1"
    warmStorageAddress := getEnv env "WARM_STORAGE_ADDRESS" (defaultWarmStorage network)
    usdfcTokenAddress := getEnv env "USDFC_TOKEN_ADDRESS" (defaultUSDFC network)
    paymentsAddress := getEnv env "PAYMENTS_ADDRESS" (defaultPayments network)
    customWallets := parseCustomWallets env
    exporterPort := getEnvInt env "EXPORTER_PORT" 9091
    logLevel := getEnv env "LOG_LEVEL" "info"
    maxConcurrentRequests := getEnvInt env "MAX_CONCURRENT_REQUESTS" 10 }

/-- config.Config.Validate: `some msg` embeds a non-nil error. -/
def Validate (c : Config) : Option String :=
  if c.rpcURL = "" then some "RPC_URL is required"
  else if c.warmStorageAddress = "" then some "WARM_STORAGE_ADDRESS is required"
  else if c.exporterPort ≤ 0 ∨ c.exporterPort > 65535 then
    some "EXPORTER_PORT must be between 1 and 65535"
  else if c.maxConcurrentRequests ≤ 0 ∨ c.maxConcurrentRequests > 1000 then
    some "MAX_CONCURRENT_REQUESTS must be between 1 and 1000"
  else none

/-- config.Load: build the config from the environment, then validate. -/
def Load (env : Env) : Except String Config :=
  let cfg := loadConfig env
  match Validate cfg with
  | some msg => .error ("config validation failed: " ++ msg)
  | none => .ok cfg

/-- exporter.WalletInfo. -/
structure WalletInfo where
  address : Address
  name : String
  type : String
  providerID : Nat
  isActive : Bool
  isApproved : Bool
  description : String
  filBalance : Int
  usdfcBalance : Int
  paymentsFunds : Int
  paymentsAvailable : Int
  paymentsLocked : Int
  paymentsFundedUntil : Int
deriving DecidableEq

/-- exporter.PaymentsInfo. -/
structure PaymentsInfo where
  funds : Int
  available : Int
  locked : Int
  fundedUntilEpoch : Int
deriving DecidableEq

/-- The struct returned by Payments.GetAccountInfoIfSettled. -/
structure AccountInfo where
  fundedUntilEpoch : Int
  currentFunds : Int
  availableFunds : Int
  currentLockupRate : Int
deriving DecidableEq

/-- The provider info struct returned by ServiceProviderRegistry.GetProvider
(nested `result.Info` in Go). -/
structure ProviderInfo where
  serviceProvider : Address
  name : String
  description : String
  isActive : Bool
deriving DecidableEq

/-- The PDP product part of GetProviderWithProduct's result. -/
structure ProviderProduct where
  isActive : Bool
  capabilityKeys : List String
deriving DecidableEq

/-- The result of ServiceProviderRegistry.GetProviderWithProduct: the product
struct plus the top-level decoded capability values. -/
structure ProviderWithProduct where
  product : ProviderProduct
  productCapabilityValues : List String
deriving DecidableEq

/-- Oracle for the registry / view contract reads. `none` embeds the remote
call returning an error. -/
structure Registry where
  getProviderCount : Option Nat
  getApprovedProviders : Option (List Nat)
  getProvider : Nat → Option ProviderInfo
  getProviderWithProduct : Nat → Option ProviderWithProduct

/-- Oracle for the chain / token / payments reads, keyed by address. -/
structure Chain where
  balanceAt : Address → Option Int
  usdfcBalanceOf : Address → Option Int
  getAccountInfoIfSettled : Address → Option AccountInfo

/-- Oracle for the HTTP ping probe: given the ping URL, an optional HTTP
status (`none` embeds a transport error) and the elapsed milliseconds. -/
structure ProbeEnv where
  httpGet : String → Option Nat × Nat

/-- exporter.PingResult (duration kept in milliseconds, as rendered). -/
structure PingResult where
  success : Bool
  durationMs : Int
  serviceURL : String
deriving DecidableEq

/-- exporter.fetchPaymentsInfo. A GetAccountInfoIfSettled error is swallowed
and yields all-zero account info (nil Go error). The only other Go error
path, the NewPaymentsCaller constructor, cannot fail on a fixed ABI and is
not modelled; its handlers in the two callers substitute the identical
all-zero default, so behaviour is unchanged. -/
def fetchPaymentsInfo (chain : Chain) (address : Address) : PaymentsInfo :=
  match chain.getAccountInfoIfSettled address with
  | none =>
    { funds := 0, available := 0, locked := 0, fundedUntilEpoch := 0 }
  | some result =>
    let locked := result.currentFunds - result.availableFunds
    let locked := if locked < 0 then 0 else locked
    { funds := result.currentFunds
      available := result.availableFunds
      locked := locked
      fundedUntilEpoch := result.fundedUntilEpoch }

/-- exporter.fetchProviderWallet: registry base info and the FIL balance are
foundational (their failure fails the record); the USDFC balance degrades
to 0 on failure. -/
def fetchProviderWallet (reg : Registry) (chain : Chain) (providerID : Nat)
    (isApproved : Bool) : Except String WalletInfo :=
  match reg.getProvider providerID with
  | none => .error "failed to get provider info"
  | some info =>
    match chain.balanceAt info.serviceProvider with
    | none => .error "failed to get FIL balance"
    | some filBalance =>
      let usdfcBalance :=
        match chain.usdfcBalanceOf info.serviceProvider with
        | none => 0
        | some b => b
      let paymentsInfo := fetchPaymentsInfo chain info.serviceProvider
      .ok { address := info.serviceProvider
            name := info.name
            type := "provider"
            providerID := providerID
            isActive := info.isActive
            isApproved := isApproved
            description := info.description
            filBalance := filBalance
            usdfcBalance := usdfcBalance
            paymentsFunds := paymentsInfo.funds
            paymentsAvailable := paymentsInfo.available
            paymentsLocked := paymentsInfo.locked
            paymentsFundedUntil := paymentsInfo.fundedUntilEpoch }

/-- The approved-provider list used by fetchProviderWallets: a
GetApprovedProviders failure degrades to the empty list. -/
def approvedList (reg : Registry) : List Nat :=
  match reg.getApprovedProviders with
  | none => []
  | some ids => ids

/-- The scrape-error counter increment caused by a GetApprovedProviders
failure inside fetchProviderWallets. -/
def approvedErrInc (reg : Registry) : Nat :=
  match reg.getApprovedProviders with
  | none => 1
  | some _ => 0

/-- The per-provider fetch outcomes for IDs 1..n (the goroutine fan-out of
fetchProviderWallets, sequentialised in ID order). -/
def providerResults (reg : Registry) (chain : Chain) (n : Nat) :
    List (Nat × Except String WalletInfo) :=
  (List.range n).map (fun i =>
    (i + 1,
     fetchProviderWallet reg chain (i + 1) ((approvedList reg).contains (i + 1))))

/-- The error entry pushed on the error channel for a failed provider fetch
(fmt.Errorf "failed to fetch provider %d: %w"), keyed by the provider ID it
wraps. -/
def errEntry (r : Nat × Except String WalletInfo) : Option (Nat × String) :=
  match r.2 with
  | .error e => some (r.1, "failed to fetch provider " ++ toString r.1 ++ ": " ++ e)
  | .ok _ => none

/-- A successful fetch outcome, as collected from the wallet channel. -/
def okValue : Except String WalletInfo → Option WalletInfo
  | .ok w => some w
  | .error _ => none

/-- The successfully fetched provider wallets collected from the channel. -/
def providerWalletsOk (reg : Registry) (chain : Chain) (n : Nat) : List WalletInfo :=
  (providerResults reg chain n).filterMap (fun r => okValue r.2)

/-- The provider fetch errors drained from the error channel (each is logged
and increments the scrape-error counter). -/
def providerFetchErrors (reg : Registry) (chain : Chain) (n : Nat) :
    List (Nat × String) :=
  (providerResults reg chain n).filterMap errEntry

/-- exporter.fetchProviderWallets. Returns the wallets, the logged fetch
errors, and the number of scrape-error counter increments performed during
the call (one for a GetApprovedProviders failure plus one per fetch error). -/
def fetchProviderWallets (reg : Registry) (chain : Chain) :
    Except String (List WalletInfo × List (Nat × String) × Nat) :=
  match reg.getProviderCount with
  | none => .error "failed to get provider count"
  | some providerCount =>
    .ok (providerWalletsOk reg chain providerCount,
         providerFetchErrors reg chain providerCount,
         approvedErrInc reg + (providerFetchErrors reg chain providerCount).length)

/-- exporter.fetchCustomWallet: the FIL balance is foundational; the USDFC
balance degrades to 0. Provider-only fields are left at their zero values. -/
def fetchCustomWallet (chain : Chain) (cw : CustomWallet) : Except String WalletInfo :=
  match chain.balanceAt cw.address with
  | none => .error "failed to get FIL balance"
  | some filBalance =>
    let usdfcBalance :=
      match chain.usdfcBalanceOf cw.address with
      | none => 0
      | some b => b
    let paymentsInfo := fetchPaymentsInfo chain cw.address
    .ok { address := cw.address
          name := cw.name
          type := cw.type
          providerID := 0
          isActive := false
          isApproved := false
          description := ""
          filBalance := filBalance
          usdfcBalance := usdfcBalance
          paymentsFunds := paymentsInfo.funds
          paymentsAvailable := paymentsInfo.available
          paymentsLocked := paymentsInfo.locked
          paymentsFundedUntil := paymentsInfo.fundedUntilEpoch }

/-- The per-custom-wallet fetch outcomes (goroutine fan-out of
fetchCustomWallets, sequentialised in configuration order). -/
def customResults (chain : Chain) (cws : List CustomWallet) :
    List (CustomWallet × Except String WalletInfo) :=
  cws.map (fun cw => (cw, fetchCustomWallet chain cw))

/-- The error entry for a failed custom-wallet fetch
(fmt.Errorf "failed to fetch custom wallet %s: %w"), keyed by address. -/
def customErrEntry (r : CustomWallet × Except String WalletInfo) :
    Option (String × String) :=
  match r.2 with
  | .error e => some (r.1.address, "failed to fetch custom wallet " ++ r.1.address ++ ": " ++ e)
  | .ok _ => none

/-- The successfully fetched custom wallets. -/
def customWalletsOk (chain : Chain) (cws : List CustomWallet) : List WalletInfo :=
  (customResults chain cws).filterMap (fun r => okValue r.2)

/-- The custom-wallet fetch errors (each logged and counted). -/
def customFetchErrors (chain : Chain) (cws : List CustomWallet) :
    List (String × String) :=
  (customResults chain cws).filterMap customErrEntry

/-- exporter.fetchCustomWallets: early empty return when no custom wallets
are configured; otherwise wallets, errors and the counter increments. -/
def fetchCustomWallets (chain : Chain) (cws : List CustomWallet) :
    Except String (List WalletInfo × List (String × String) × Nat) :=
  if cws.isEmpty then .ok ([], [], 0)
  else
    .ok (customWalletsOk chain cws,
         customFetchErrors chain cws,
         (customFetchErrors chain cws).length)

/-- The capability-decoding loop of exporter.pingProvider: walk the keys with
a running index; at the first "serviceURL" key take the value at that index
when one exists (otherwise the zero value "") and stop. -/
def findServiceURLLoop (keys : List String) (values : List String) (i : Nat) : String :=
  match keys with
  | [] => ""
  | key :: rest =>
    if key == "serviceURL" then
      if i < values.length then values.getD i "" else ""
    else
      findServiceURLLoop rest values (i + 1)

/-- Decode the serviceURL capability of a product (pingProvider step 2). -/
def extractServiceURL (keys values : List String) : String :=
  findServiceURLLoop keys values 0

/-- strings.TrimRight(s, "/"): drop all trailing slashes. -/
def trimTrailingSlash (s : String) : String :=
  String.mk ((s.data.reverse.dropWhile (fun c => c == '/')).reverse)

/-- exporter.pingProvider: `none` embeds the `(PingResult{}, false)` returns
(no PDP product, inactive product, missing/empty serviceURL); a transport
error on the GET still yields `some` result with `success := false`. -/
def pingProvider (reg : Registry) (probe : ProbeEnv) (p : WalletInfo) :
    Option PingResult :=
  match reg.getProviderWithProduct p.providerID with
  | none => none
  | some result =>
    if !result.product.isActive then none
    else
      let serviceURL := extractServiceURL result.product.capabilityKeys
        result.productCapabilityValues
      if serviceURL = "" then none
      else
        let baseURL := trimTrailingSlash serviceURL
        let pingURL := baseURL ++ "/pdp/ping"
        match probe.httpGet pingURL with
        | (none, duration) =>
          some { success := false, durationMs := duration, serviceURL := serviceURL }
        | (some statusCode, duration) =>
          some { success := statusCode == 200, durationMs := duration, serviceURL := serviceURL }

/-- Insert into the providerID-keyed results map (Go map assignment:
overwrite an existing key, otherwise add). -/
def mapInsert (m : List (Nat × PingResult)) (k : Nat) (v : PingResult) :
    List (Nat × PingResult) :=
  if (m.find? (fun e => e.1 == k)).isSome then
    m.map (fun e => if e.1 == k then (k, v) else e)
  else m ++ [(k, v)]

/-- Go map lookup `pingResults[id]`. -/
def lookupPing (m : List (Nat × PingResult)) (id : Nat) : Option PingResult :=
  (m.find? (fun e => e.1 == id)).map (fun e => e.2)

/-- exporter.pingProviders: skip the ID-0 sentinel, record only the probes
that produced a result. -/
def pingProviders (reg : Registry) (probe : ProbeEnv)
    (providers : List WalletInfo) : List (Nat × PingResult) :=
  providers.foldl (fun results p =>
    if p.providerID == 0 then results
    else
      match pingProvider reg probe p with
      | some result => mapInsert results p.providerID result
      | none => results) []

/-- Label set of the six per-wallet balance/payment gauge families. -/
structure Labels where
  address : String
  name : String
  type : String
  provider_id : String
  is_active : String
  approved : String
deriving DecidableEq

/-- Label set of the wallet-info gauge family. -/
structure InfoLabels where
  address : String
  name : String
  type : String
  provider_id : String
  description : String
  is_active : String
  approved : String
deriving DecidableEq

/-- Label set of the two ping gauge families. -/
structure PingLabels where
  address : String
  name : String
  provider_id : String
  service_url : String
deriving DecidableEq

/-- fmt.Sprintf("%t", b). -/
def formatBool (b : Bool) : String :=
  if b then "true" else "false"

/-- The provider_id label value: rendered with %d, then cleared for
non-provider wallets. -/
def renderProviderID (w : WalletInfo) : String :=
  let providerID := toString w.providerID
  if w.type ≠ "provider" then "" else providerID

/-- The is_active label value, cleared for non-provider wallets. -/
def renderIsActive (w : WalletInfo) : String :=
  let isActive := formatBool w.isActive
  if w.type ≠ "provider" then "" else isActive

/-- The approved label value, cleared for non-provider wallets. -/
def renderApproved (w : WalletInfo) : String :=
  let approved := formatBool w.isApproved
  if w.type ≠ "provider" then "" else approved

/-- The balance/payment-family label set built in updateMetrics. -/
def mkLabels (w : WalletInfo) : Labels :=
  { address := w.address
    name := w.name
    type := w.type
    provider_id := renderProviderID w
    is_active := renderIsActive w
    approved := renderApproved w }

/-- The info-family label set built in updateMetrics. -/
def mkInfoLabels (w : WalletInfo) : InfoLabels :=
  { address := w.address
    name := w.name
    type := w.type
    provider_id := renderProviderID w
    description := w.description
    is_active := renderIsActive w
    approved := renderApproved w }

/-- The ping-family label set built in updateMetrics. -/
def mkPingLabels (w : WalletInfo) (serviceURL : String) : PingLabels :=
  { address := w.address
    name := w.name
    provider_id := renderProviderID w
    service_url := serviceURL }

/-- A Prometheus GaugeVec as a label-keyed partial map (values in base
units, see the file header). -/
def GaugeVec (α : Type) : Type := α → Option Int

/-- GaugeVec.With(labels).Set(v). -/
def GaugeVec.set {α : Type} [DecidableEq α] (g : GaugeVec α) (l : α) (v : Int) :
    GaugeVec α :=
  fun l' => if l' = l then some v else g l'

/-- GaugeVec.Reset(): delete every series. -/
def GaugeVec.reset {α : Type} : GaugeVec α :=
  fun _ => none

/-- The state of the exporter's per-entity gauge families. -/
structure GaugeState where
  filBalanceGauge : GaugeVec Labels
  usdfcBalanceGauge : GaugeVec Labels
  walletInfoGauge : GaugeVec InfoLabels
  paymentsFundsGauge : GaugeVec Labels
  paymentsAvailableGauge : GaugeVec Labels
  paymentsLockedGauge : GaugeVec Labels
  paymentsFundedUntilGauge : GaugeVec Labels
  pingSuccessGauge : GaugeVec PingLabels
  pingDurationGauge : GaugeVec PingLabels

/-- The gauge state with no series at all. -/
def emptyGaugeState : GaugeState :=
  { filBalanceGauge := GaugeVec.reset
    usdfcBalanceGauge := GaugeVec.reset
    walletInfoGauge := GaugeVec.reset
    paymentsFundsGauge := GaugeVec.reset
    paymentsAvailableGauge := GaugeVec.reset
    paymentsLockedGauge := GaugeVec.reset
    paymentsFundedUntilGauge := GaugeVec.reset
    pingSuccessGauge := GaugeVec.reset
    pingDurationGauge := GaugeVec.reset }

/-- The nine Reset() calls at the top of updateMetrics. -/
def resetGauges (st : GaugeState) : GaugeState :=
  { st with
    filBalanceGauge := GaugeVec.reset
    usdfcBalanceGauge := GaugeVec.reset
    walletInfoGauge := GaugeVec.reset
    paymentsFundsGauge := GaugeVec.reset
    paymentsAvailableGauge := GaugeVec.reset
    paymentsLockedGauge := GaugeVec.reset
    paymentsFundedUntilGauge := GaugeVec.reset
    pingSuccessGauge := GaugeVec.reset
    pingDurationGauge := GaugeVec.reset }

/-- The per-wallet body of updateMetrics's loop: set the six balance/payment
series, the info series, and (for providers with a ping result) the two ping
series. -/
def applyWalletMetrics (pingResults : List (Nat × PingResult))
    (st : GaugeState) (w : WalletInfo) : GaugeState :=
  let labels := mkLabels w
  let st1 : GaugeState :=
    { st with
      filBalanceGauge := st.filBalanceGauge.set labels w.filBalance
      usdfcBalanceGauge := st.usdfcBalanceGauge.set labels w.usdfcBalance
      paymentsFundsGauge := st.paymentsFundsGauge.set labels w.paymentsFunds
      paymentsAvailableGauge := st.paymentsAvailableGauge.set labels w.paymentsAvailable
      paymentsLockedGauge := st.paymentsLockedGauge.set labels w.paymentsLocked
      paymentsFundedUntilGauge := st.paymentsFundedUntilGauge.set labels w.paymentsFundedUntil
      walletInfoGauge := st.walletInfoGauge.set (mkInfoLabels w) 1 }
  if w.type = "provider" then
    match lookupPing pingResults w.providerID with
    | some result =>
      let pingLabels := mkPingLabels w result.serviceURL
      { st1 with
        pingSuccessGauge := st1.pingSuccessGauge.set pingLabels
          (if result.success then 1 else 0)
        pingDurationGauge := st1.pingDurationGauge.set pingLabels result.durationMs }
    | none => st1
  else st1

/-- exporter.updateMetrics: reset every per-entity family, then write the
series of the new snapshot. -/
def updateMetrics (prev : GaugeState) (wallets : List WalletInfo)
    (pingResults : List (Nat × PingResult)) : GaugeState :=
  wallets.foldl (applyWalletMetrics pingResults) (resetGauges prev)

/-- Everything one scrape cycle produces: the snapshot, the ping results,
the published gauge state, the logged fetch errors, the number of
scrape-error counter increments, and the error value scrape returns. -/
structure ScrapeOutput where
  wallets : List WalletInfo
  pingResults : List (Nat × PingResult)
  metrics : GaugeState
  fetchErrors : List (Nat × String)
  customErrors : List (String × String)
  errorIncrements : Nat
  returnedError : Option String

/-- exporter.scrape: provider fetch (with its concurrent ping pass), custom
fetch, snapshot replacement and metric publication. A total fetch failure is
only logged; scrape itself always returns nil. -/
def scrape (reg : Registry) (chain : Chain) (customWallets : List CustomWallet)
    (probe : ProbeEnv) (prevMetrics : GaugeState) : ScrapeOutput :=
  let pres := fetchProviderWallets reg chain
  let providerWallets := match pres with | .ok t => t.1 | .error _ => []
  let providerErrors := match pres with | .ok t => t.2.1 | .error _ => []
  let providerInc := match pres with | .ok t => t.2.2 | .error _ => 0
  let providerOk : Bool := match pres with | .ok _ => true | .error _ => false
  let pingResults := if providerOk then pingProviders reg probe providerWallets else []
  let cres := fetchCustomWallets chain customWallets
  let cWallets := match cres with | .ok t => t.1 | .error _ => []
  let cErrors := match cres with | .ok t => t.2.1 | .error _ => []
  let cInc := match cres with | .ok t => t.2.2 | .error _ => 0
  let allWallets := providerWallets ++ cWallets
  { wallets := allWallets
    pingResults := pingResults
    metrics := updateMetrics prevMetrics allWallets pingResults
    fetchErrors := providerErrors
    customErrors := cErrors
    errorIncrements := providerInc + cInc
    returnedError := none }

/-- Where a worker of one of the three semaphore-bounded pools stands:
before acquiring the semaphore slot, holding it (its remote call is in
flight), or finished (slot released). -/
inductive WorkerPhase where
  | idle
  | inflight
  | done
deriving DecidableEq

/-- Number of workers whose remote call is in flight. -/
def inflightCount (ws : List WorkerPhase) : Nat :=
  ws.countP (fun p => p == WorkerPhase.inflight)

/-- One step of a pool of workers sharing a buffered-channel semaphore of
capacity N (the `make(chan struct x, MaxConcurrentRequests)` pattern of
fetchProviderWallets, fetchCustomWallets and pingProviders): a send on the
channel (acquire) only proceeds while fewer than N slots are taken; a
receive (the deferred release) always proceeds. -/
inductive SemStep (N : Nat) : List WorkerPhase → List WorkerPhase → Prop where
  | acquire (pre post : List WorkerPhase) :
      inflightCount (pre ++ WorkerPhase.idle :: post) < N →
      SemStep N (pre ++ WorkerPhase.idle :: post) (pre ++ WorkerPhase.inflight :: post)
  | release (pre post : List WorkerPhase) :
      SemStep N (pre ++ WorkerPhase.inflight :: post) (pre ++ WorkerPhase.done :: post)

/-- The pool states reachable from k workers that have not yet acquired the
semaphore. -/
inductive SemReachable (N k : Nat) : List WorkerPhase → Prop where
  | init : SemReachable N k (List.replicate k WorkerPhase.idle)
  | step {s t : List WorkerPhase} :
      SemReachable N k s → SemStep N s t → SemReachable N k t

/-- Which wallets a gauge state's series can have come from: every series of
every per-entity family is the rendering of some wallet satisfying P (ping
series additionally of that wallet's recorded ping result). -/
def SeriesFrom (P : WalletInfo → Prop) (pingResults : List (Nat × PingResult))
    (st : GaugeState) : Prop :=
  (∀ l, (st.filBalanceGauge l).isSome → ∃ w, P w ∧ l = mkLabels w) ∧
  (∀ l, (st.usdfcBalanceGauge l).isSome → ∃ w, P w ∧ l = mkLabels w) ∧
  (∀ l, (st.paymentsFundsGauge l).isSome → ∃ w, P w ∧ l = mkLabels w) ∧
  (∀ l, (st.paymentsAvailableGauge l).isSome → ∃ w, P w ∧ l = mkLabels w) ∧
  (∀ l, (st.paymentsLockedGauge l).isSome → ∃ w, P w ∧ l = mkLabels w) ∧
  (∀ l, (st.paymentsFundedUntilGauge l).isSome → ∃ w, P w ∧ l = mkLabels w) ∧
  (∀ l, (st.walletInfoGauge l).isSome → ∃ w, P w ∧ l = mkInfoLabels w) ∧
  (∀ l, (st.pingSuccessGauge l).isSome →
    ∃ w, P w ∧ w.type = "provider" ∧
      ∃ r, lookupPing pingResults w.providerID = some r ∧ l = mkPingLabels w r.serviceURL) ∧
  (∀ l, (st.pingDurationGauge l).isSome →
    ∃ w, P w ∧ w.type = "provider" ∧
      ∃ r, lookupPing pingResults w.providerID = some r ∧ l = mkPingLabels w r.serviceURL)

/-! Concrete inputs used by witnesses and counterexamples. -/

/-- A custom wallet of kind client (witness data). -/
def clientWallet : WalletInfo :=
  { address := "0x1111111111111111111111111111111111111111"
    name := "Client A"
    type := "client"
    providerID := 0
    isActive := false
    isApproved := false
    description := ""
    filBalance := 5
    usdfcBalance := 2
    paymentsFunds := 9
    paymentsAvailable := 4
    paymentsLocked := 5
    paymentsFundedUntil := 120 }

/-- A stale label set left over from a previous cycle (witness data). -/
def staleLabels : Labels :=
  { address := "0xDEAD00000000000000000000000000000000DEAD"
    name := "Gone SP"
    type := "provider"
    provider_id := "7"
    is_active := "true"
    approved := "false" }

/-- A previous-cycle gauge state still holding a series for `staleLabels`
(witness data). -/
def stalePrevState : GaugeState :=
  { emptyGaugeState with filBalanceGauge := GaugeVec.reset.set staleLabels 3 }

/-- A probe oracle whose every GET fails at the transport level. -/
def noProbe : ProbeEnv :=
  { httpGet := fun _ => (none, 0) }

/-- Registry info of a single provider (counterexample data for the
token-balance-failure scenario). -/
def c3Info : ProviderInfo :=
  { serviceProvider := "0xA100000000000000000000000000000000000001"
    name := "SP One"
    description := "sp"
    isActive := true }

/-- A registry with exactly provider 1, no approvals (counterexample data). -/
def c3Reg : Registry :=
  { getProviderCount := some 1
    getApprovedProviders := some []
    getProvider := fun i => if i = 1 then some c3Info else none
    getProviderWithProduct := fun _ => none }

/-- A chain where provider 1's FIL balance reads 7 but every USDFC token
balance lookup fails (counterexample data). -/
def c3Chain : Chain :=
  { balanceAt := fun a => if a = c3Info.serviceProvider then some 7 else none
    usdfcBalanceOf := fun _ => none
    getAccountInfoIfSettled := fun _ => none }

/-- The wallet record fetchProviderWallet produces for provider 1 of
`c3Reg`/`c3Chain`. -/
def c3Wallet : WalletInfo :=
  { address := c3Info.serviceProvider
    name := "SP One"
    type := "provider"
    providerID := 1
    isActive := true
    isApproved := false
    description := "sp"
    filBalance := 7
    usdfcBalance := 0
    paymentsFunds := 0
    paymentsAvailable := 0
    paymentsLocked := 0
    paymentsFundedUntil := 0 }

/-- A registry with one provider whose base-info lookup always fails
(witness data for the dropped-provider scenario). -/
def c6Reg : Registry :=
  { getProviderCount := some 1
    getApprovedProviders := some []
    getProvider := fun _ => none
    getProviderWithProduct := fun _ => none }

/-- An active PDP product advertising a serviceURL (counterexample data for
the probe scenario). -/
def c8Product : ProviderWithProduct :=
  { product := { isActive := true, capabilityKeys := ["serviceURL"] }
    productCapabilityValues := ["http://sp.example"] }

/-- A registry exposing `c8Product` for provider 1. -/
def c8Reg : Registry :=
  { getProviderCount := some 1
    getApprovedProviders := some []
    getProvider := fun _ => none
    getProviderWithProduct := fun i => if i = 1 then some c8Product else none }

/-- A probe whose GET fails at the transport level after 7 ms. -/
def c8Probe : ProbeEnv :=
  { httpGet := fun _ => (none, 7) }

/-- A provider-typed wallet record with ID 1 (probe counterexample data). -/
def c8Wallet : WalletInfo :=
  { address := "0xA100000000000000000000000000000000000001"
    name := "SP One"
    type := "provider"
    providerID := 1
    isActive := true
    isApproved := false
    description := "sp"
    filBalance := 7
    usdfcBalance := 0
    paymentsFunds := 0
    paymentsAvailable := 0
    paymentsLocked := 0
    paymentsFundedUntil := 0 }

/-- An environment supplying an unparseable port value (counterexample
data). -/
def c9BadEnv : Env :=
  fun key => if key = "EXPORTER_PORT" then "abc" else ""

/-- An environment supplying an out-of-range port value (witness data). -/
def c9RangeEnv : Env :=
  fun key => if key = "EXPORTER_PORT" then "70000" else ""

/-- An active product whose capability list names "serviceURL" twice: the
first occurrence pairs with an empty value, the later one with a non-empty
URL (witness data for first-occurrence-wins). -/
def c10Res : ProviderWithProduct :=
  { product := { isActive := true, capabilityKeys := ["foo", "serviceURL", "serviceURL"] }
    productCapabilityValues := ["x", "", "http://second.example"] }

/-- A registry exposing `c10Res` for provider 1. -/
def c10Reg : Registry :=
  { getProviderCount := some 1
    getApprovedProviders := some []
    getProvider := fun _ => none
    getProviderWithProduct := fun i => if i = 1 then some c10Res else none }

/-- A provider-typed wallet record with ID 1 (duplicate-capability witness
data). -/
def c10Wallet : WalletInfo :=
  { address := "0xA100000000000000000000000000000000000002"
    name := "SP Two"
    type := "provider"
    providerID := 1
    isActive := true
    isApproved := false
    description := "sp"
    filBalance := 0
    usdfcBalance := 0
    paymentsFunds := 0
    paymentsAvailable := 0
    paymentsLocked := 0
    paymentsFundedUntil := 0 }

end WalletExporter

namespace WalletExporter

/-! Helper lemmas. -/

theorem gaugeSet_isSome {α : Type} [DecidableEq α] (g : GaugeVec α) (l : α)
    (v : Int) (l' : α) (h : ((g.set l v) l').isSome) : l' = l ∨ (g l').isSome := by
  by_cases hl : l' = l
  · exact Or.inl hl
  · right
    simpa [GaugeVec.set, hl] using h

theorem seriesFrom_mono {P Q : WalletInfo → Prop} {pr : List (Nat × PingResult)}
    {st : GaugeState} (hPQ : ∀ w, P w → Q w) (h : SeriesFrom P pr st) :
    SeriesFrom Q pr st := by
  obtain ⟨h1, h2, h3, h4, h5, h6, h7, h8, h9⟩ := h
  refine ⟨?_, ?_, ?_, ?_, ?_, ?_, ?_, ?_, ?_⟩
  · intro l hl; obtain ⟨w, hw, hlw⟩ := h1 l hl; exact ⟨w, hPQ w hw, hlw⟩
  · intro l hl; obtain ⟨w, hw, hlw⟩ := h2 l hl; exact ⟨w, hPQ w hw, hlw⟩
  · intro l hl; obtain ⟨w, hw, hlw⟩ := h3 l hl; exact ⟨w, hPQ w hw, hlw⟩
  · intro l hl; obtain ⟨w, hw, hlw⟩ := h4 l hl; exact ⟨w, hPQ w hw, hlw⟩
  · intro l hl; obtain ⟨w, hw, hlw⟩ := h5 l hl; exact ⟨w, hPQ w hw, hlw⟩
  · intro l hl; obtain ⟨w, hw, hlw⟩ := h6 l hl; exact ⟨w, hPQ w hw, hlw⟩
  · intro l hl; obtain ⟨w, hw, hlw⟩ := h7 l hl; exact ⟨w, hPQ w hw, hlw⟩
  · intro l hl; obtain ⟨w, hw, hty, r, hr, hlw⟩ := h8 l hl
    exact ⟨w, hPQ w hw, hty, r, hr, hlw⟩
  · intro l hl; obtain ⟨w, hw, hty, r, hr, hlw⟩ := h9 l hl
    exact ⟨w, hPQ w hw, hty, r, hr, hlw⟩

theorem seriesFrom_apply {P : WalletInfo → Prop} {pr : List (Nat × PingResult)}
    {st : GaugeState} (w : WalletInfo) (h : SeriesFrom P pr st) :
    SeriesFrom (fun x => P x ∨ x = w) pr (applyWalletMetrics pr st w) := by
  obtain ⟨h1, h2, h3, h4, h5, h6, h7, h8, h9⟩ := h
  have base : SeriesFrom (fun x => P x ∨ x = w) pr
      { st with
        filBalanceGauge := st.filBalanceGauge.set (mkLabels w) w.filBalance
        usdfcBalanceGauge := st.usdfcBalanceGauge.set (mkLabels w) w.usdfcBalance
        paymentsFundsGauge := st.paymentsFundsGauge.set (mkLabels w) w.paymentsFunds
        paymentsAvailableGauge := st.paymentsAvailableGauge.set (mkLabels w) w.paymentsAvailable
        paymentsLockedGauge := st.paymentsLockedGauge.set (mkLabels w) w.paymentsLocked
        paymentsFundedUntilGauge := st.paymentsFundedUntilGauge.set (mkLabels w) w.paymentsFundedUntil
        walletInfoGauge := st.walletInfoGauge.set (mkInfoLabels w) 1 } := by
    refine ⟨?_, ?_, ?_, ?_, ?_, ?_, ?_, ?_, ?_⟩
    · intro l hl
      rcases gaugeSet_isSome _ _ _ _ hl with hl' | hl'
      · exact ⟨w, Or.inr rfl, hl'⟩
      · obtain ⟨x, hx, hlx⟩ := h1 l hl'; exact ⟨x, Or.inl hx, hlx⟩
    · intro l hl
      rcases gaugeSet_isSome _ _ _ _ hl with hl' | hl'
      · exact ⟨w, Or.inr rfl, hl'⟩
      · obtain ⟨x, hx, hlx⟩ := h2 l hl'; exact ⟨x, Or.inl hx, hlx⟩
    · intro l hl
      rcases gaugeSet_isSome _ _ _ _ hl with hl' | hl'
      · exact ⟨w, Or.inr rfl, hl'⟩
      · obtain ⟨x, hx, hlx⟩ := h3 l hl'; exact ⟨x, Or.inl hx, hlx⟩
    · intro l hl
      rcases gaugeSet_isSome _ _ _ _ hl with hl' | hl'
      · exact ⟨w, Or.inr rfl, hl'⟩
      · obtain ⟨x, hx, hlx⟩ := h4 l hl'; exact ⟨x, Or.inl hx, hlx⟩
    · intro l hl
      rcases gaugeSet_isSome _ _ _ _ hl with hl' | hl'
      · exact ⟨w, Or.inr rfl, hl'⟩
      · obtain ⟨x, hx, hlx⟩ := h5 l hl'; exact ⟨x, Or.inl hx, hlx⟩
    · intro l hl
      rcases gaugeSet_isSome _ _ _ _ hl with hl' | hl'
      · exact ⟨w, Or.inr rfl, hl'⟩
      · obtain ⟨x, hx, hlx⟩ := h6 l hl'; exact ⟨x, Or.inl hx, hlx⟩
    · intro l hl
      rcases gaugeSet_isSome _ _ _ _ hl with hl' | hl'
      · exact ⟨w, Or.inr rfl, hl'⟩
      · obtain ⟨x, hx, hlx⟩ := h7 l hl'; exact ⟨x, Or.inl hx, hlx⟩
    · intro l hl
      obtain ⟨x, hx, hty, r, hr, hlx⟩ := h8 l hl
      exact ⟨x, Or.inl hx, hty, r, hr, hlx⟩
    · intro l hl
      obtain ⟨x, hx, hty, r, hr, hlx⟩ := h9 l hl
      exact ⟨x, Or.inl hx, hty, r, hr, hlx⟩
  unfold applyWalletMetrics
  by_cases hty : w.type = "provider"
  · simp only [hty, if_pos]
    cases hping : lookupPing pr w.providerID with
    | none => simpa [hping] using base
    | some result =>
      simp only [hping]
      obtain ⟨b1, b2, b3, b4, b5, b6, b7, b8, b9⟩ := base
      refine ⟨b1, b2, b3, b4, b5, b6, b7, ?_, ?_⟩
      · intro l hl
        rcases gaugeSet_isSome _ _ _ _ hl with hl' | hl'
        · exact ⟨w, Or.inr rfl, hty, result, hping, hl'⟩
        · exact b8 l hl'
      · intro l hl
        rcases gaugeSet_isSome _ _ _ _ hl with hl' | hl'
        · exact ⟨w, Or.inr rfl, hty, result, hping, hl'⟩
        · exact b9 l hl'
  · simpa [hty] using base

theorem seriesFrom_foldl {pr : List (Nat × PingResult)} :
    ∀ (ws : List WalletInfo) (st : GaugeState) (P : WalletInfo → Prop),
      SeriesFrom P pr st →
      SeriesFrom (fun x => P x ∨ x ∈ ws) pr (ws.foldl (applyWalletMetrics pr) st) := by
  intro ws
  induction ws with
  | nil =>
    intro st P h
    exact seriesFrom_mono (fun x hx => Or.inl hx) h
  | cons w ws ih =>
    intro st P h
    have h2 := ih (applyWalletMetrics pr st w) (fun x => P x ∨ x = w) (seriesFrom_apply w h)
    refine seriesFrom_mono ?_ h2
    intro x hx
    rcases hx with (hx | hx) | hx
    · exact Or.inl hx
    · exact Or.inr (by simp [hx])
    · exact Or.inr (List.mem_cons_of_mem _ hx)

theorem seriesFrom_reset (pr : List (Nat × PingResult)) (st : GaugeState) :
    SeriesFrom (fun _ => False) pr (resetGauges st) := by
  refine ⟨?_, ?_, ?_, ?_, ?_, ?_, ?_, ?_, ?_⟩ <;>
    · intro l hl
      simp [resetGauges, GaugeVec.reset] at hl

theorem updateMetrics_seriesFrom (prev : GaugeState) (wallets : List WalletInfo)
    (pr : List (Nat × PingResult)) :
    SeriesFrom (fun w => w ∈ wallets) pr (updateMetrics prev wallets pr) := by
  have h := seriesFrom_foldl wallets (resetGauges prev) (fun _ => False)
    (seriesFrom_reset pr prev)
  exact seriesFrom_mono (fun x hx => by tauto) h

theorem mkLabels_nonprovider_fields {w : WalletInfo} (h : w.type ≠ "provider") :
    (mkLabels w).provider_id = "" ∧ (mkLabels w).is_active = "" ∧
      (mkLabels w).approved = "" := by
  simp [mkLabels, renderProviderID, renderIsActive, renderApproved, h]

theorem mkInfoLabels_nonprovider_fields {w : WalletInfo} (h : w.type ≠ "provider") :
    (mkInfoLabels w).provider_id = "" ∧ (mkInfoLabels w).is_active = "" ∧
      (mkInfoLabels w).approved = "" := by
  simp [mkInfoLabels, renderProviderID, renderIsActive, renderApproved, h]

/-- Claim C1: for every wallet record whose type is not "provider", the label
values rendered for provider_id, is_active and approved are the empty string
in every published metric family: all six balance/payment families and the
info family key such records with empty provider fields, and the two ping
families carry series only for provider-typed records at all. -/
theorem c1_nonprovider_labels_empty (prev : GaugeState) (wallets : List WalletInfo)
    (pr : List (Nat × PingResult)) :
    (∀ l : Labels,
      (((updateMetrics prev wallets pr).filBalanceGauge l).isSome ∨
        ((updateMetrics prev wallets pr).usdfcBalanceGauge l).isSome ∨
        ((updateMetrics prev wallets pr).paymentsFundsGauge l).isSome ∨
        ((updateMetrics prev wallets pr).paymentsAvailableGauge l).isSome ∨
        ((updateMetrics prev wallets pr).paymentsLockedGauge l).isSome ∨
        ((updateMetrics prev wallets pr).paymentsFundedUntilGauge l).isSome) →
      l.type ≠ "provider" →
      l.provider_id = "" ∧ l.is_active = "" ∧ l.approved = "") ∧
    (∀ l : InfoLabels, ((updateMetrics prev wallets pr).walletInfoGauge l).isSome →
      l.type ≠ "provider" →
      l.provider_id = "" ∧ l.is_active = "" ∧ l.approved = "") ∧
    (∀ l : PingLabels,
      (((updateMetrics prev wallets pr).pingSuccessGauge l).isSome ∨
        ((updateMetrics prev wallets pr).pingDurationGauge l).isSome) →
      ∃ w ∈ wallets, w.type = "provider" ∧ l.address = w.address) := by
  obtain ⟨h1, h2, h3, h4, h5, h6, h7, h8, h9⟩ :=
    updateMetrics_seriesFrom prev wallets pr
  refine ⟨?_, ?_, ?_⟩
  · intro l hl hty
    have hw : ∃ w, w ∈ wallets ∧ l = mkLabels w := by
      rcases hl with hl | hl | hl | hl | hl | hl
      · exact h1 l hl
      · exact h2 l hl
      · exact h3 l hl
      · exact h4 l hl
      · exact h5 l hl
      · exact h6 l hl
    obtain ⟨w, _, hlw⟩ := hw
    subst hlw
    exact mkLabels_nonprovider_fields (by simpa [mkLabels] using hty)
  · intro l hl hty
    obtain ⟨w, _, hlw⟩ := h7 l hl
    subst hlw
    exact mkInfoLabels_nonprovider_fields (by simpa [mkInfoLabels] using hty)
  · intro l hl
    have hw : ∃ w, w ∈ wallets ∧ w.type = "provider" ∧
        ∃ r, lookupPing pr w.providerID = some r ∧ l = mkPingLabels w r.serviceURL := by
      rcases hl with hl | hl
      · exact h8 l hl
      · exact h9 l hl
    obtain ⟨w, hwin, hty, r, _, hlw⟩ := hw
    exact ⟨w, hwin, hty, by simp [hlw, mkPingLabels]⟩

/-- Witness for C1: a concrete client wallet is published with a series in
the FIL-balance family whose provider_id, is_active and approved labels are
empty. -/
theorem c1_nonprovider_labels_empty_witness :
    (((updateMetrics emptyGaugeState [clientWallet] []).filBalanceGauge
        (mkLabels clientWallet)).isSome ∨
      ((updateMetrics emptyGaugeState [clientWallet] []).usdfcBalanceGauge
        (mkLabels clientWallet)).isSome ∨
      ((updateMetrics emptyGaugeState [clientWallet] []).paymentsFundsGauge
        (mkLabels clientWallet)).isSome ∨
      ((updateMetrics emptyGaugeState [clientWallet] []).paymentsAvailableGauge
        (mkLabels clientWallet)).isSome ∨
      ((updateMetrics emptyGaugeState [clientWallet] []).paymentsLockedGauge
        (mkLabels clientWallet)).isSome ∨
      ((updateMetrics emptyGaugeState [clientWallet] []).paymentsFundedUntilGauge
        (mkLabels clientWallet)).isSome) ∧
    (mkLabels clientWallet).type ≠ "provider" ∧
    ((mkLabels clientWallet).provider_id = "" ∧
      (mkLabels clientWallet).is_active = "" ∧
      (mkLabels clientWallet).approved = "") := by
  refine ⟨Or.inl (by decide), by decide, ?_⟩
  exact (c1_nonprovider_labels_empty emptyGaugeState [clientWallet] []).1
    (mkLabels clientWallet) (Or.inl (by decide)) (by decide)

/-- Claim C2: after a publication, no series of any per-entity family carries
the address of an entity absent from the current snapshot — whatever series
the previous gauge state still held. -/
theorem c2_stale_series_cleared (prev : GaugeState) (wallets : List WalletInfo)
    (pr : List (Nat × PingResult)) (a : String)
    (h : ∀ w ∈ wallets, w.address ≠ a) :
    (∀ l : Labels, l.address = a →
      (updateMetrics prev wallets pr).filBalanceGauge l = none ∧
      (updateMetrics prev wallets pr).usdfcBalanceGauge l = none ∧
      (updateMetrics prev wallets pr).paymentsFundsGauge l = none ∧
      (updateMetrics prev wallets pr).paymentsAvailableGauge l = none ∧
      (updateMetrics prev wallets pr).paymentsLockedGauge l = none ∧
      (updateMetrics prev wallets pr).paymentsFundedUntilGauge l = none) ∧
    (∀ l : InfoLabels, l.address = a →
      (updateMetrics prev wallets pr).walletInfoGauge l = none) ∧
    (∀ l : PingLabels, l.address = a →
      (updateMetrics prev wallets pr).pingSuccessGauge l = none ∧
      (updateMetrics prev wallets pr).pingDurationGauge l = none) := by
  obtain ⟨h1, h2, h3, h4, h5, h6, h7, h8, h9⟩ :=
    updateMetrics_seriesFrom prev wallets pr
  have noLabels : ∀ (g : GaugeVec Labels),
      (∀ l, (g l).isSome → ∃ w, w ∈ wallets ∧ l = mkLabels w) →
      ∀ l : Labels, l.address = a → g l = none := by
    intro g hg l hla
    rw [← Option.not_isSome_iff_eq_none]
    intro hs
    obtain ⟨w, hwin, hlw⟩ := hg l hs
    exact h w hwin (by simpa [hlw, mkLabels] using hla)
  have noPing : ∀ (g : GaugeVec PingLabels),
      (∀ l, (g l).isSome → ∃ w, w ∈ wallets ∧ w.type = "provider" ∧
        ∃ r, lookupPing pr w.providerID = some r ∧ l = mkPingLabels w r.serviceURL) →
      ∀ l : PingLabels, l.address = a → g l = none := by
    intro g hg l hla
    rw [← Option.not_isSome_iff_eq_none]
    intro hs
    obtain ⟨w, hwin, _, r, _, hlw⟩ := hg l hs
    exact h w hwin (by simpa [hlw, mkPingLabels] using hla)
  refine ⟨?_, ?_, ?_⟩
  · intro l hla
    exact ⟨noLabels _ h1 l hla, noLabels _ h2 l hla, noLabels _ h3 l hla,
      noLabels _ h4 l hla, noLabels _ h5 l hla, noLabels _ h6 l hla⟩
  · intro l hla
    rw [← Option.not_isSome_iff_eq_none]
    intro hs
    obtain ⟨w, hwin, hlw⟩ := h7 l hs
    exact h w hwin (by simpa [hlw, mkInfoLabels] using hla)
  · intro l hla
    exact ⟨noPing _ h8 l hla, noPing _ h9 l hla⟩

/-- Witness for C2: a previous gauge state holds a series for a provider that
does not appear in the new snapshot; after publishing the new snapshot that
series is gone. -/
theorem c2_stale_series_cleared_witness :
    stalePrevState.filBalanceGauge staleLabels = some 3 ∧
    (∀ w ∈ [clientWallet], w.address ≠ staleLabels.address) ∧
    (updateMetrics stalePrevState [clientWallet] []).filBalanceGauge staleLabels = none := by
  refine ⟨by decide, by decide, ?_⟩
  exact ((c2_stale_series_cleared stalePrevState [clientWallet] []
    staleLabels.address (by decide)).1 staleLabels rfl).1

/-- Claim C4: the payments-info fetch always reports
locked = max 0 (funds − available), never a negative value. -/
theorem c4_payment_locked_clamped (chain : Chain) (address : Address) :
    (fetchPaymentsInfo chain address).locked =
      max 0 ((fetchPaymentsInfo chain address).funds -
        (fetchPaymentsInfo chain address).available) := by
  cases h : chain.getAccountInfoIfSettled address with
  | none => simp [fetchPaymentsInfo, h]
  | some r =>
    simp only [fetchPaymentsInfo, h]
    rw [Int.max_def]
    split_ifs <;> omega

/-- Claim C7: a scrape cycle always reports success (returns nil), whatever
the provider-enumeration, custom-wallet or per-entity fetch oracles do —
including total failure of both fetches. -/
theorem c7_scrape_returns_no_error (reg : Registry) (chain : Chain)
    (customWallets : List CustomWallet) (probe : ProbeEnv) (prev : GaugeState) :
    (scrape reg chain customWallets probe prev).returnedError = none := rfl

theorem inflightCount_replicate_idle (k : Nat) :
    inflightCount (List.replicate k WorkerPhase.idle) = 0 := by
  induction k with
  | zero => rfl
  | succ k ih =>
    simp [List.replicate_succ, inflightCount, List.countP_cons, ih]

/-- Claim C5: in any state reachable by a semaphore-bounded worker pool with
concurrency ceiling N, at most N remote calls are in flight — the bound that
fetchProviderWallets, fetchCustomWallets and pingProviders all obtain from
the shared buffered-channel semaphore pattern. -/
theorem c5_semaphore_bound (N k : Nat) (s : List WorkerPhase)
    (h : SemReachable N k s) : inflightCount s ≤ N := by
  induction h with
  | init => simp [inflightCount_replicate_idle]
  | step hre hstep ih =>
    cases hstep with
    | acquire pre post hlt =>
      have hnew : inflightCount (pre ++ WorkerPhase.inflight :: post) =
          inflightCount (pre ++ WorkerPhase.idle :: post) + 1 := by
        simp [inflightCount, List.countP_append, List.countP_cons]
        omega
      omega
    | release pre post =>
      have hold : inflightCount (pre ++ WorkerPhase.inflight :: post) =
          inflightCount (pre ++ WorkerPhase.done :: post) + 1 := by
        simp [inflightCount, List.countP_append, List.countP_cons]
        omega
      omega

/-- Witness for C5: with ceiling 1 and two workers, the state where the first
worker's call is in flight is reachable and respects the bound. -/
theorem c5_semaphore_bound_witness :
    SemReachable 1 2 [WorkerPhase.inflight, WorkerPhase.idle] ∧
    inflightCount [WorkerPhase.inflight, WorkerPhase.idle] ≤ 1 := by
  have hstep : SemStep 1 [WorkerPhase.idle, WorkerPhase.idle]
      [WorkerPhase.inflight, WorkerPhase.idle] :=
    SemStep.acquire ([] : List WorkerPhase) [WorkerPhase.idle] (by decide)
  have hre : SemReachable 1 2 [WorkerPhase.inflight, WorkerPhase.idle] :=
    SemReachable.step SemReachable.init hstep
  exact ⟨hre, c5_semaphore_bound 1 2 _ hre⟩

theorem okValue_eq_some {r : Except String WalletInfo} {w : WalletInfo} :
    okValue r = some w ↔ r = .ok w := by
  cases r <;> simp [okValue]

theorem fetchProviderWallet_ok {reg : Registry} {chain : Chain} {id : Nat}
    {b : Bool} {w : WalletInfo}
    (h : fetchProviderWallet reg chain id b = .ok w) :
    w.providerID = id ∧ w.type = "provider" := by
  unfold fetchProviderWallet at h
  cases hp : reg.getProvider id with
  | none => simp [hp] at h
  | some info =>
    simp only [hp] at h
    cases hb : chain.balanceAt info.serviceProvider with
    | none => simp [hb] at h
    | some bal =>
      simp only [hb, Except.ok.injEq] at h
      rw [← h]
      exact ⟨rfl, rfl⟩

theorem fetchProviderWallet_foundational_error {reg : Registry} {chain : Chain}
    {id : Nat} (b : Bool)
    (h : reg.getProvider id = none ∨
      ∃ info, reg.getProvider id = some info ∧ chain.balanceAt info.serviceProvider = none) :
    ∃ e, fetchProviderWallet reg chain id b = .error e := by
  rcases h with hp | ⟨info, hp, hb⟩
  · exact ⟨"failed to get provider info", by simp [fetchProviderWallet, hp]⟩
  · exact ⟨"failed to get FIL balance", by simp [fetchProviderWallet, hp, hb]⟩

theorem mem_providerWalletsOk {reg : Registry} {chain : Chain} {n : Nat}
    {w : WalletInfo} :
    w ∈ providerWalletsOk reg chain n ↔
      ∃ i, i < n ∧ fetchProviderWallet reg chain (i + 1)
        ((approvedList reg).contains (i + 1)) = .ok w := by
  unfold providerWalletsOk providerResults
  simp [List.mem_filterMap, List.mem_map, List.mem_range, okValue_eq_some]

theorem mem_providerFetchErrors_of {reg : Registry} {chain : Chain} {n id : Nat}
    {e : String} (hid1 : 1 ≤ id) (hid2 : id ≤ n)
    (he : fetchProviderWallet reg chain id ((approvedList reg).contains id) = .error e) :
    (id, "failed to fetch provider " ++ toString id ++ ": " ++ e) ∈
      providerFetchErrors reg chain n := by
  unfold providerFetchErrors providerResults
  rw [List.mem_filterMap]
  have hsub : id - 1 + 1 = id := by omega
  refine ⟨(id, fetchProviderWallet reg chain id ((approvedList reg).contains id)), ?_, ?_⟩
  · rw [List.mem_map]
    refine ⟨id - 1, ?_, ?_⟩
    · rw [List.mem_range]; omega
    · simp [hsub]
  · simp only [errEntry, he]

theorem providerFetchErrors_mem_id {reg : Registry} {chain : Chain} {n : Nat}
    {p : Nat × String} (hp : p ∈ providerFetchErrors reg chain n) :
    ∃ i, i < n ∧ p.1 = i + 1 ∧
      ∃ e, fetchProviderWallet reg chain (i + 1)
        ((approvedList reg).contains (i + 1)) = .error e := by
  unfold providerFetchErrors providerResults at hp
  rw [List.mem_filterMap] at hp
  obtain ⟨r, hr, hre⟩ := hp
  rw [List.mem_map] at hr
  obtain ⟨i, hi, hri⟩ := hr
  rw [List.mem_range] at hi
  rw [← hri] at hre
  refine ⟨i, hi, ?_, ?_⟩
  · cases hfe : fetchProviderWallet reg chain (i + 1) ((approvedList reg).contains (i + 1)) with
    | ok w => rw [hfe] at hre; simp [errEntry] at hre
    | error e =>
      rw [hfe] at hre
      simp only [errEntry, Option.some.injEq] at hre
      rw [← hre]
  · cases hfe : fetchProviderWallet reg chain (i + 1) ((approvedList reg).contains (i + 1)) with
    | ok w => rw [hfe] at hre; simp [errEntry] at hre
    | error e => exact ⟨e, rfl⟩

theorem fetchProviderWallets_ok (reg : Registry) (chain : Chain) {n : Nat}
    (h : reg.getProviderCount = some n) :
    fetchProviderWallets reg chain = .ok (providerWalletsOk reg chain n,
      providerFetchErrors reg chain n,
      approvedErrInc reg + (providerFetchErrors reg chain n).length) := by
  simp [fetchProviderWallets, h]

theorem fetchCustomWallet_ok {chain : Chain} {cw : CustomWallet} {w : WalletInfo}
    (h : fetchCustomWallet chain cw = .ok w) :
    w.providerID = 0 ∧ w.type = cw.type := by
  unfold fetchCustomWallet at h
  cases hb : chain.balanceAt cw.address with
  | none => simp [hb] at h
  | some bal =>
    simp only [hb, Except.ok.injEq] at h
    rw [← h]
    exact ⟨rfl, rfl⟩

theorem mem_customWalletsOk {chain : Chain} {cws : List CustomWallet}
    {w : WalletInfo} :
    w ∈ customWalletsOk chain cws ↔
      ∃ cw ∈ cws, fetchCustomWallet chain cw = .ok w := by
  unfold customWalletsOk customResults
  simp [List.mem_filterMap, List.mem_map, okValue_eq_some]

theorem fetchCustomWallets_providerID_zero {chain : Chain}
    {cws : List CustomWallet} {t : List WalletInfo × List (String × String) × Nat}
    (h : fetchCustomWallets chain cws = .ok t) :
    ∀ w ∈ t.1, w.providerID = 0 := by
  unfold fetchCustomWallets at h
  by_cases hemp : cws.isEmpty
  · rw [if_pos hemp] at h
    simp only [Except.ok.injEq] at h
    rw [← h]
    intro w hw
    simp at hw
  · rw [if_neg hemp] at h
    simp only [Except.ok.injEq] at h
    rw [← h]
    intro w hw
    rw [mem_customWalletsOk] at hw
    obtain ⟨cw, _, hok⟩ := hw
    exact (fetchCustomWallet_ok hok).1

theorem providerWalletsOk_id_ne {reg : Registry} {chain : Chain} {n id : Nat}
    (hfail : ∀ b : Bool, ∃ e, fetchProviderWallet reg chain id b = .error e) :
    ∀ w ∈ providerWalletsOk reg chain n, w.providerID ≠ id := by
  intro w hw
  rw [mem_providerWalletsOk] at hw
  obtain ⟨i, _, hok⟩ := hw
  have hpid := (fetchProviderWallet_ok hok).1
  intro hcontra
  rw [hpid] at hcontra
  subst hcontra
  obtain ⟨e, he⟩ := hfail ((approvedList reg).contains (i + 1))
  rw [hok] at he
  exact absurd he (by simp)

/-- Claim C6: when a provider's foundational lookup (registry base info or
native-balance fetch) fails, that provider is absent from the snapshot, a
fetch error carrying its identifier is logged, the scrape-error counter is
incremented, and every published metric series originates from a surviving
wallet — none of which is the failed provider. -/
theorem c6_failed_provider_dropped (reg : Registry) (chain : Chain)
    (cws : List CustomWallet) (probe : ProbeEnv) (prev : GaugeState)
    (id n : Nat)
    (h1 : reg.getProviderCount = some n)
    (h2 : 1 ≤ id) (h3 : id ≤ n)
    (h4 : reg.getProvider id = none ∨
      ∃ info, reg.getProvider id = some info ∧
        chain.balanceAt info.serviceProvider = none) :
    (∀ w ∈ (scrape reg chain cws probe prev).wallets, w.providerID ≠ id) ∧
    (∃ m, (id, m) ∈ (scrape reg chain cws probe prev).fetchErrors) ∧
    1 ≤ (scrape reg chain cws probe prev).errorIncrements ∧
    SeriesFrom (fun w => w ∈ (scrape reg chain cws probe prev).wallets ∧ w.providerID ≠ id)
      (scrape reg chain cws probe prev).pingResults
      (scrape reg chain cws probe prev).metrics := by
  have hfail : ∀ b : Bool, ∃ e, fetchProviderWallet reg chain id b = .error e :=
    fun b => fetchProviderWallet_foundational_error b h4
  have hfp := fetchProviderWallets_ok reg chain h1
  obtain ⟨e, he⟩ := hfail ((approvedList reg).contains id)
  have hmemE := mem_providerFetchErrors_of h2 h3 he
  rcases hfc : fetchCustomWallets chain cws with cerr | ct
  case error =>
    have hW : (scrape reg chain cws probe prev).wallets =
        providerWalletsOk reg chain n := by
      simp [scrape, hfp, hfc]
    have hE : (scrape reg chain cws probe prev).fetchErrors =
        providerFetchErrors reg chain n := by
      simp [scrape, hfp]
    have hInc : (scrape reg chain cws probe prev).errorIncrements =
        approvedErrInc reg + (providerFetchErrors reg chain n).length := by
      simp [scrape, hfp, hfc]
    have hP : (scrape reg chain cws probe prev).pingResults =
        pingProviders reg probe (providerWalletsOk reg chain n) := by
      simp [scrape, hfp]
    have hM : (scrape reg chain cws probe prev).metrics =
        updateMetrics prev (providerWalletsOk reg chain n)
          (pingProviders reg probe (providerWalletsOk reg chain n)) := by
      simp [scrape, hfp, hfc]
    have hne : ∀ w ∈ providerWalletsOk reg chain n, w.providerID ≠ id :=
      providerWalletsOk_id_ne hfail
    refine ⟨?_, ?_, ?_, ?_⟩
    · rw [hW]; exact hne
    · rw [hE]; exact ⟨_, hmemE⟩
    · rw [hInc]
      have := List.length_pos.mpr (List.ne_nil_of_mem hmemE)
      omega
    · rw [hM, hP, hW]
      have horig := updateMetrics_seriesFrom prev (providerWalletsOk reg chain n)
        (pingProviders reg probe (providerWalletsOk reg chain n))
      exact seriesFrom_mono (fun x hx => ⟨hx, hne x hx⟩) horig
  case ok =>
    have hW : (scrape reg chain cws probe prev).wallets =
        providerWalletsOk reg chain n ++ ct.1 := by
      simp [scrape, hfp, hfc]
    have hE : (scrape reg chain cws probe prev).fetchErrors =
        providerFetchErrors reg chain n := by
      simp [scrape, hfp]
    have hInc : (scrape reg chain cws probe prev).errorIncrements =
        approvedErrInc reg + (providerFetchErrors reg chain n).length + ct.2.2 := by
      simp [scrape, hfp, hfc]
    have hP : (scrape reg chain cws probe prev).pingResults =
        pingProviders reg probe (providerWalletsOk reg chain n) := by
      simp [scrape, hfp]
    have hM : (scrape reg chain cws probe prev).metrics =
        updateMetrics prev (providerWalletsOk reg chain n ++ ct.1)
          (pingProviders reg probe (providerWalletsOk reg chain n)) := by
      simp [scrape, hfp, hfc]
    have hne : ∀ w ∈ providerWalletsOk reg chain n ++ ct.1, w.providerID ≠ id := by
      intro w hw
      rcases List.mem_append.mp hw with hw | hw
      · exact providerWalletsOk_id_ne hfail w hw
      · have := fetchCustomWallets_providerID_zero hfc w hw
        omega
    refine ⟨?_, ?_, ?_, ?_⟩
    · rw [hW]; exact hne
    · rw [hE]; exact ⟨_, hmemE⟩
    · rw [hInc]
      have := List.length_pos.mpr (List.ne_nil_of_mem hmemE)
      omega
    · rw [hM, hP, hW]
      have horig := updateMetrics_seriesFrom prev (providerWalletsOk reg chain n ++ ct.1)
        (pingProviders reg probe (providerWalletsOk reg chain n))
      exact seriesFrom_mono (fun x hx => ⟨hx, hne x hx⟩) horig

/-- Witness for C6: with a one-provider registry whose base-info lookup
fails, the scrape publishes no wallet with provider ID 1, records the fetch
error under ID 1, and counts at least one scrape error. -/
theorem c6_failed_provider_dropped_witness :
    (c6Reg.getProviderCount = some 1 ∧ (1 : Nat) ≤ 1 ∧
      (c6Reg.getProvider 1 = none ∨
        ∃ info, c6Reg.getProvider 1 = some info ∧
          c3Chain.balanceAt info.serviceProvider = none)) ∧
    ((∀ w ∈ (scrape c6Reg c3Chain [] noProbe emptyGaugeState).wallets,
        w.providerID ≠ 1) ∧
      (∃ m, (1, m) ∈ (scrape c6Reg c3Chain [] noProbe emptyGaugeState).fetchErrors) ∧
      1 ≤ (scrape c6Reg c3Chain [] noProbe emptyGaugeState).errorIncrements ∧
      SeriesFrom (fun w => w ∈ (scrape c6Reg c3Chain [] noProbe emptyGaugeState).wallets ∧
          w.providerID ≠ 1)
        (scrape c6Reg c3Chain [] noProbe emptyGaugeState).pingResults
        (scrape c6Reg c3Chain [] noProbe emptyGaugeState).metrics) := by
  refine ⟨⟨rfl, le_refl 1, Or.inl rfl⟩, ?_⟩
  exact c6_failed_provider_dropped c6Reg c3Chain [] noProbe emptyGaugeState 1 1
    rfl (le_refl 1) (le_refl 1) (Or.inl rfl)

/-- Counterexample to claim C3: for a provider whose USDFC token-balance
lookup fails while the foundational lookups succeed, the record is indeed
published with token balance 0 and the real FIL balance — but
fetchProviderWallets performs 0 scrape-error counter increments, not the
claimed exactly 1: the token failure only logs a warning and never reaches
the error channel. -/
theorem c3_counterexample :
    c3Chain.usdfcBalanceOf c3Info.serviceProvider = none ∧
    fetchProviderWallets c3Reg c3Chain = .ok ([c3Wallet], [], 0) ∧
    c3Wallet.usdfcBalance = 0 ∧ c3Wallet.filBalance = 7 ∧ (0 : Nat) ≠ 1 :=
  ⟨rfl, rfl, rfl, rfl, by decide⟩

/-- Claim C3 (amended): for every provider whose USDFC token-balance lookup
fails while its foundational lookups succeed, the provider's record is still
published with token balance defaulted to 0 and its native balance equal to
the actually fetched value, and no scrape-error entry is recorded for that
provider — the counter increment for that failure is 0, not 1 (the total
increments stay equal to the approved-list failure plus the per-provider
fetch errors, which exclude this provider). -/
theorem c3_token_failure_degrades (reg : Registry) (chain : Chain)
    (id n : Nat) (info : ProviderInfo) (bal : Int)
    (h1 : reg.getProviderCount = some n)
    (h2 : 1 ≤ id) (h3 : id ≤ n)
    (h5 : reg.getProvider id = some info)
    (h6 : chain.balanceAt info.serviceProvider = some bal)
    (h7 : chain.usdfcBalanceOf info.serviceProvider = none) :
    ∃ wallets errs,
      fetchProviderWallets reg chain = .ok (wallets, errs, approvedErrInc reg + errs.length) ∧
      (∃ w ∈ wallets, w.providerID = id ∧ w.usdfcBalance = 0 ∧ w.filBalance = bal) ∧
      (∀ m, (id, m) ∉ errs) := by
  have hok : fetchProviderWallet reg chain id ((approvedList reg).contains id) =
      .ok { address := info.serviceProvider
            name := info.name
            type := "provider"
            providerID := id
            isActive := info.isActive
            isApproved := (approvedList reg).contains id
            description := info.description
            filBalance := bal
            usdfcBalance := 0
            paymentsFunds := (fetchPaymentsInfo chain info.serviceProvider).funds
            paymentsAvailable := (fetchPaymentsInfo chain info.serviceProvider).available
            paymentsLocked := (fetchPaymentsInfo chain info.serviceProvider).locked
            paymentsFundedUntil := (fetchPaymentsInfo chain info.serviceProvider).fundedUntilEpoch } := by
    unfold fetchProviderWallet
    simp only [h5, h6, h7]
  refine ⟨providerWalletsOk reg chain n, providerFetchErrors reg chain n,
    fetchProviderWallets_ok reg chain h1, ?_, ?_⟩
  · have hsub : id - 1 + 1 = id := by omega
    have hok2 : ∃ w, fetchProviderWallet reg chain id ((approvedList reg).contains id) = .ok w ∧
        w.providerID = id ∧ w.usdfcBalance = 0 ∧ w.filBalance = bal :=
      ⟨_, hok, rfl, rfl, rfl⟩
    obtain ⟨w, hokw, hw1, hw2, hw3⟩ := hok2
    have hmem : w ∈ providerWalletsOk reg chain n :=
      mem_providerWalletsOk.mpr ⟨id - 1, by omega, by rw [hsub]; exact hokw⟩
    exact ⟨w, hmem, hw1, hw2, hw3⟩
  · intro m hm
    obtain ⟨i, _, hi1, e, he⟩ := providerFetchErrors_mem_id hm
    simp only at hi1
    have hid : i + 1 = id := hi1.symm
    rw [hid] at he
    rw [hok] at he
    exact absurd he (by simp)

/-- Witness for amended C3: on the concrete one-provider registry and the
chain whose token lookups fail, the wallet is published with token balance 0
and FIL balance 7, and no error entry is recorded for provider 1. -/
theorem c3_token_failure_degrades_witness :
    (c3Reg.getProviderCount = some 1 ∧
      c3Reg.getProvider 1 = some c3Info ∧
      c3Chain.balanceAt c3Info.serviceProvider = some 7 ∧
      c3Chain.usdfcBalanceOf c3Info.serviceProvider = none) ∧
    (∃ wallets errs,
      fetchProviderWallets c3Reg c3Chain = .ok (wallets, errs, approvedErrInc c3Reg + errs.length) ∧
      (∃ w ∈ wallets, w.providerID = 1 ∧ w.usdfcBalance = 0 ∧ w.filBalance = 7) ∧
      (∀ m, (1, m) ∉ errs)) := by
  refine ⟨⟨rfl, rfl, rfl, rfl⟩, ?_⟩
  exact c3_token_failure_degrades c3Reg c3Chain 1 1 c3Info 7
    rfl (le_refl 1) (le_refl 1) rfl rfl rfl

/-- Counterexample to claim C8: a transport-level network error during the
probe GET does not degrade to "no ping result" — pingProvider records a
result with success = false and the measured duration. -/
theorem c8_counterexample :
    c8Probe.httpGet "http://sp.example/pdp/ping" = (none, 7) ∧
    pingProvider c8Reg c8Probe c8Wallet =
      some { success := false, durationMs := 7, serviceURL := "http://sp.example" } ∧
    pingProvider c8Reg c8Probe c8Wallet ≠ none :=
  ⟨rfl, rfl, by decide⟩

/-- Claim C8 (amended): a missing PDP product, an inactive product flag, or
a missing/empty serviceURL capability each degrade to no ping result; a
network error during the probe GET instead records a ping result with
success = false and the measured duration. In every case pingProvider
returns a value — it never fails the collection. -/
theorem c8_probe_degrades (reg : Registry) (probe : ProbeEnv) (p : WalletInfo) :
    (reg.getProviderWithProduct p.providerID = none →
      pingProvider reg probe p = none) ∧
    (∀ res, reg.getProviderWithProduct p.providerID = some res →
      res.product.isActive = false →
      pingProvider reg probe p = none) ∧
    (∀ res, reg.getProviderWithProduct p.providerID = some res →
      res.product.isActive = true →
      extractServiceURL res.product.capabilityKeys res.productCapabilityValues = "" →
      pingProvider reg probe p = none) ∧
    (∀ res d, reg.getProviderWithProduct p.providerID = some res →
      res.product.isActive = true →
      extractServiceURL res.product.capabilityKeys res.productCapabilityValues ≠ "" →
      probe.httpGet (trimTrailingSlash (extractServiceURL res.product.capabilityKeys
        res.productCapabilityValues) ++ "/pdp/ping") = (none, d) →
      pingProvider reg probe p =
        some { success := false, durationMs := d,
               serviceURL := extractServiceURL res.product.capabilityKeys
                 res.productCapabilityValues }) := by
  refine ⟨?_, ?_, ?_, ?_⟩
  · intro hres
    simp [pingProvider, hres]
  · intro res hres hact
    simp [pingProvider, hres, hact]
  · intro res hres hact hurl
    simp [pingProvider, hres, hact, hurl]
  · intro res d hres hact hurl hget
    simp [pingProvider, hres, hact, hurl, hget]

/-- Witness for amended C8: on the concrete provider with an active product
and a reachable serviceURL whose GET fails at transport level, the recorded
result is success = false with the measured 7 ms. -/
theorem c8_probe_degrades_witness :
    (c8Reg.getProviderWithProduct c8Wallet.providerID = some c8Product ∧
      c8Product.product.isActive = true ∧
      extractServiceURL c8Product.product.capabilityKeys
        c8Product.productCapabilityValues ≠ "" ∧
      c8Probe.httpGet (trimTrailingSlash (extractServiceURL
        c8Product.product.capabilityKeys c8Product.productCapabilityValues) ++
        "/pdp/ping") = (none, 7)) ∧
    pingProvider c8Reg c8Probe c8Wallet =
      some { success := false, durationMs := 7,
             serviceURL := extractServiceURL c8Product.product.capabilityKeys
               c8Product.productCapabilityValues } := by
  refine ⟨⟨rfl, rfl, by decide, rfl⟩, ?_⟩
  exact (c8_probe_degrades c8Reg c8Probe c8Wallet).2.2.2 c8Product 7
    rfl rfl (by decide) rfl

theorem atoi_empty : atoi "" = none := rfl

theorem getEnv_ne_empty (env : Env) (key defaultValue : String)
    (hd : defaultValue ≠ "") : getEnv env key defaultValue ≠ "" := by
  unfold getEnv
  split
  · assumption
  · exact hd

theorem getEnvInt_of_some {env : Env} {key : String} {d v : Int}
    (h : atoi (env key) = some v) : getEnvInt env key d = v := by
  have hne : env key ≠ "" := by
    intro he
    rw [he, atoi_empty] at h
    exact absurd h (by simp)
  unfold getEnvInt
  rw [if_pos hne, h]

/-- Counterexample to claim C9: the supplied port value "abc" is invalid
(unparseable), yet startup does not fail — getEnvInt silently replaces it
with the default 9091 and Load succeeds. -/
theorem c9_counterexample :
    c9BadEnv "EXPORTER_PORT" = "abc" ∧
    atoi "abc" = none ∧
    (loadConfig c9BadEnv).exporterPort = 9091 ∧
    Load c9BadEnv = .ok (loadConfig c9BadEnv) :=
  ⟨rfl, rfl, rfl, rfl⟩

/-- Claim C9 (amended): a supplied numeric value that parses but is out of
range (port outside 1..65535, concurrency ceiling outside 1..1000) makes
startup validation fail with a descriptive error; a supplied value that does
not parse at all is, however, silently replaced by the documented default
rather than failing startup. -/
theorem c9_validation (env : Env) :
    (∀ key d, atoi (env key) = none → getEnvInt env key d = d) ∧
    (∀ v : Int, atoi (env "EXPORTER_PORT") = some v → (v ≤ 0 ∨ v > 65535) →
      ∃ m, Load env = .error ("config validation failed: " ++ m)) ∧
    (∀ v : Int, atoi (env "MAX_CONCURRENT_REQUESTS") = some v → (v ≤ 0 ∨ v > 1000) →
      ∃ m, Load env = .error ("config validation failed: " ++ m)) := by
  have hrpc : (loadConfig env).rpcURL ≠ "" :=
    getEnv_ne_empty env "RPC_URL" "https://api.calibration.node.glif.io/rpc/v1"
      (by decide)
  refine ⟨?_, ?_, ?_⟩
  · intro key d h
    unfold getEnvInt
    split
    · rw [h]
    · rfl
  · intro v hv hrange
    have hport : (loadConfig env).exporterPort = v := getEnvInt_of_some hv
    by_cases hws : (loadConfig env).warmStorageAddress = ""
    · refine ⟨"WARM_STORAGE_ADDRESS is required", ?_⟩
      have hval : Validate (loadConfig env) = some "WARM_STORAGE_ADDRESS is required" := by
        unfold Validate
        rw [if_neg hrpc, if_pos hws]
      simp only [Load]
      rw [hval]
    · refine ⟨"EXPORTER_PORT must be between 1 and 65535", ?_⟩
      have hval : Validate (loadConfig env) =
          some "EXPORTER_PORT must be between 1 and 65535" := by
        unfold Validate
        rw [if_neg hrpc, if_neg hws, if_pos (by rw [hport]; exact hrange)]
      simp only [Load]
      rw [hval]
  · intro v hv hrange
    have hmax : (loadConfig env).maxConcurrentRequests = v := getEnvInt_of_some hv
    by_cases hws : (loadConfig env).warmStorageAddress = ""
    · refine ⟨"WARM_STORAGE_ADDRESS is required", ?_⟩
      have hval : Validate (loadConfig env) = some "WARM_STORAGE_ADDRESS is required" := by
        unfold Validate
        rw [if_neg hrpc, if_pos hws]
      simp only [Load]
      rw [hval]
    · by_cases hpc : (loadConfig env).exporterPort ≤ 0 ∨ (loadConfig env).exporterPort > 65535
      · refine ⟨"EXPORTER_PORT must be between 1 and 65535", ?_⟩
        have hval : Validate (loadConfig env) =
            some "EXPORTER_PORT must be between 1 and 65535" := by
          unfold Validate
          rw [if_neg hrpc, if_neg hws, if_pos hpc]
        simp only [Load]
        rw [hval]
      · refine ⟨"MAX_CONCURRENT_REQUESTS must be between 1 and 1000", ?_⟩
        have hval : Validate (loadConfig env) =
            some "MAX_CONCURRENT_REQUESTS must be between 1 and 1000" := by
          unfold Validate
          rw [if_neg hrpc, if_neg hws, if_neg hpc, if_pos (by rw [hmax]; exact hrange)]
        simp only [Load]
        rw [hval]

/-- Witness for amended C9: the parseable but out-of-range port "70000"
makes Load fail with a descriptive validation error. -/
theorem c9_validation_witness :
    atoi (c9RangeEnv "EXPORTER_PORT") = some 70000 ∧
    ((70000 : Int) ≤ 0 ∨ (70000 : Int) > 65535) ∧
    (∃ m, Load c9RangeEnv = .error ("config validation failed: " ++ m)) := by
  refine ⟨rfl, by decide, ?_⟩
  exact (c9_validation c9RangeEnv).2.1 70000 rfl (by decide)

theorem findServiceURLLoop_first (values : List String) :
    ∀ (keys1 keys2 : List String) (i : Nat), "serviceURL" ∉ keys1 →
      findServiceURLLoop (keys1 ++ "serviceURL" :: keys2) values i =
        (if keys1.length + i < values.length then values.getD (keys1.length + i) ""
         else "") := by
  intro keys1
  induction keys1 with
  | nil =>
    intro keys2 i _
    simp [findServiceURLLoop]
  | cons k ks ih =>
    intro keys2 i h
    have hk : (k == "serviceURL") = false := by
      rw [List.mem_cons] at h
      simp only [beq_eq_false_iff_ne]
      exact fun he => h (Or.inl he.symm)
    rw [List.cons_append]
    unfold findServiceURLLoop
    rw [hk]
    rw [ih keys2 (i + 1) (fun hm => h (List.mem_cons_of_mem _ hm))]
    have hlen : ks.length + (i + 1) = (k :: ks).length + i := by
      simp [List.length_cons]
      omega
    rw [hlen]
    simp

/-- Claim C10: when the capability key list names "serviceURL" more than
once, the probe uses the value paired with the first occurrence and ignores
all later occurrences; if that first occurrence has no corresponding value
entry or its value is empty, the probe yields no ping result. -/
theorem c10_first_serviceURL_wins (keys1 keys2 values : List String)
    (h : "serviceURL" ∉ keys1) :
    extractServiceURL (keys1 ++ "serviceURL" :: keys2) values =
      values.getD keys1.length "" ∧
    (∀ reg probe p res,
      reg.getProviderWithProduct p.providerID = some res →
      res.product.isActive = true →
      res.product.capabilityKeys = keys1 ++ "serviceURL" :: keys2 →
      res.productCapabilityValues = values →
      values.getD keys1.length "" = "" →
      pingProvider reg probe p = none) := by
  have hmain : extractServiceURL (keys1 ++ "serviceURL" :: keys2) values =
      values.getD keys1.length "" := by
    unfold extractServiceURL
    rw [findServiceURLLoop_first values keys1 keys2 0 h]
    by_cases hlen : keys1.length + 0 < values.length
    · simp only [hlen, if_pos]
      simp
    · rw [if_neg hlen]
      rw [List.getD_eq_default]
      omega
  refine ⟨hmain, ?_⟩
  intro reg probe p res hres hact hkeys hvals hempty
  have hurl : extractServiceURL res.product.capabilityKeys res.productCapabilityValues = "" := by
    rw [hkeys, hvals, hmain, hempty]
  simp [pingProvider, hres, hact, hurl]

/-- Witness for C10: with capability keys ["foo", "serviceURL", "serviceURL"]
and values ["x", "", "http://second.example"], the first "serviceURL" wins —
its empty value means no ping result, even though the later duplicate pairs
with a non-empty URL. -/
theorem c10_first_serviceURL_wins_witness :
    ("serviceURL" ∉ ["foo"]) ∧
    extractServiceURL (["foo"] ++ "serviceURL" :: ["serviceURL"])
      ["x", "", "http://second.example"] =
      (["x", "", "http://second.example"] : List String).getD (["foo"] : List String).length "" ∧
    pingProvider c10Reg noProbe c10Wallet = none := by
  have h := c10_first_serviceURL_wins ["foo"] ["serviceURL"]
    ["x", "", "http://second.example"] (by decide)
  refine ⟨by decide, h.1, ?_⟩
  exact h.2 c10Reg noProbe c10Wallet c10Res rfl rfl rfl rfl rfl

end WalletExporter
